import Mathlib

/-!
# Verification of the DexScreener bot classification pipeline

Shallow embedding of `script/bot.py` (class `DexScreenerBot`).  Python floats
are modelled as exact rationals (`ℚ`); every claim under study is a threshold
comparison, not a rounding property.  Side-effecting methods are modelled as
pure functions returning the updated state together with the events they
emit.  A Python exception (ZeroDivisionError, KeyError) is modelled as the
`none` value of an `Option` result.
-/

set_option maxHeartbeats 1000000

namespace CryptoBot

/-- One entry of a pair's holder list (`pair["holders"]`, each with an
`"amount"` field). -/
structure Holder where
  amount : ℚ
deriving DecidableEq, Repr

/-- The fields of a raw DexScreener pair record that the classifier reads.
`liquidity_usd` models `pair.get("liquidity", {}).get("usd", 0)`,
`volume_h24` models `pair.get("volume", {}).get("h24", 0)`,
`priceUsd` models `float(pair.get("priceUsd", 0))` (0 when falsy),
`maker_address` models `pair.get("maker", {}).get("address", "")`,
`ageHours` models `(datetime.now() - datetime.fromtimestamp(pairCreatedAt/1000))
.total_seconds() / 3600`, taken as one input since the wall clock is external. -/
structure Pair where
  pairAddress : String
  chainId : String
  symbol : String
  liquidity_usd : ℚ
  volume_h24 : ℚ
  priceUsd : ℚ
  ageHours : ℚ
  holders : List Holder
  maker_address : String
deriving DecidableEq, Repr

/-- `config["patterns"]["fake_volume"]`. -/
structure FakeVolumeCfg where
  volume_liquidity_ratio : ℚ
  min_transactions : ℚ
deriving DecidableEq, Repr

/-- `config["patterns"]["rugged"]`. -/
structure RuggedCfg where
  liquidity_threshold : ℚ
  volume_multiplier : ℚ
deriving DecidableEq, Repr

/-- `config["patterns"]["pumped"]`. -/
structure PumpedCfg where
  volume_multiplier : ℚ
  max_age_hours : ℚ
deriving DecidableEq, Repr

/-- `config["patterns"]["new_pair"]`. -/
structure NewPairCfg where
  max_age_hours : ℚ
deriving DecidableEq, Repr

/-- `config["patterns"]`. -/
structure PatternsCfg where
  rugged : RuggedCfg
  pumped : PumpedCfg
  new_pair : NewPairCfg
  fake_volume : FakeVolumeCfg
deriving DecidableEq, Repr

/-- `config["filters"]`. -/
structure FiltersCfg where
  min_liquidity_usd : ℚ
  min_volume_24h : ℚ
  max_age_hours : ℚ
deriving DecidableEq, Repr

/-- `config["trading"]`. -/
structure TradingCfg where
  amount_usd : ℚ
  buy_threshold : ℚ
  sell_threshold : ℚ
deriving DecidableEq, Repr

/-- `config["blacklists"]`: four lists, mutable (Python lists, appended to by
`analyze_pair`). -/
structure Blacklists where
  tokens : List String
  developers : List String
  fake_volume_tokens : List String
  bundled_tokens : List String
deriving DecidableEq, Repr

/-- The read-only threshold part of the configuration. -/
structure Config where
  filters : FiltersCfg
  patterns : PatternsCfg
  trading : TradingCfg
deriving DecidableEq, Repr

/-- A row of the `trades` table, as written by `execute_trade`. -/
structure TradeEvent where
  pair_address : String
  action : String
  amount_usd : ℚ
  price_usd : ℚ
deriving DecidableEq, Repr

/-- A Telegram notification sent by `execute_trade` (the literal message text
is abstracted to its data: action, symbol, amount, price). -/
structure Notification where
  action : String
  symbol : String
  amount_usd : ℚ
  price_usd : ℚ
deriving DecidableEq, Repr

/-- The bot state that `analyze_pair` reads and mutates: the blacklists stored
in `self.config["blacklists"]` and the per-address `self.price_history`. -/
structure BotState where
  blacklists : Blacklists
  price_history : String → List ℚ

/-- `fetch_pocker_universe_data(self, pair_address, volume, liquidity)`:
`ratio = volume / liquidity if liquidity > 0 else float('inf')` and the result
is `ratio > fake_pattern["volume_liquidity_ratio"] and 100 <
fake_pattern["min_transactions"]`.  Note the source compares the literal `100`
— not a transaction count of the pair — against `min_transactions`; an
infinite ratio (nonpositive liquidity) exceeds every finite threshold. -/
def fetch_pocker_universe_data (cfg : FakeVolumeCfg) (volume liquidity : ℚ) : Bool :=
  (if 0 < liquidity then decide (cfg.volume_liquidity_ratio < volume / liquidity) else true)
    && decide ((100 : ℚ) < cfg.min_transactions)

/-- Sum of the amounts of a holder list (`sum(h["amount"] for h in holders)`). -/
def sumAmounts (hs : List Holder) : ℚ :=
  (hs.map Holder.amount).sum

/-- `check_bundled_supply(self, pair)`: returns `false` on an empty holder
list; otherwise divides each holder amount by the total.  When the total is
zero the first division raises `ZeroDivisionError`, modelled as `none`. -/
def check_bundled_supply (hs : List Holder) : Option Bool :=
  if hs.isEmpty then some false
  else if sumAmounts hs = 0 then none
  else some (hs.any fun h => decide ((1 : ℚ)/2 < h.amount / sumAmounts hs))

/-- `apply_filters(self, pair)`: rejects on any blacklist hit (symbol against
`tokens`, `fake_volume_tokens`, `bundled_tokens`; developer address against
`developers`), then requires liquidity ≥ min, volume ≥ min, age ≤ max. -/
def apply_filters (cfg : Config) (bl : Blacklists) (p : Pair) : Bool :=
  if p.symbol ∈ bl.tokens ∨ p.maker_address ∈ bl.developers
      ∨ p.symbol ∈ bl.fake_volume_tokens ∨ p.symbol ∈ bl.bundled_tokens then
    false
  else
    decide (cfg.filters.min_liquidity_usd ≤ p.liquidity_usd)
      && decide (cfg.filters.min_volume_24h ≤ p.volume_h24)
      && decide (p.ageHours ≤ cfg.filters.max_age_hours)

/-- `detect_patterns(self, analysis)`: first-match cascade
rugged → pumped → new_pair → normal. -/
def detect_patterns (cfg : Config) (liquidity volume age_hours : ℚ) : String :=
  if liquidity < cfg.filters.min_liquidity_usd * cfg.patterns.rugged.liquidity_threshold
      ∧ liquidity * cfg.patterns.rugged.volume_multiplier < volume then
    "rugged"
  else if liquidity * cfg.patterns.pumped.volume_multiplier < volume
      ∧ age_hours < cfg.patterns.pumped.max_age_hours then
    "pumped"
  else if age_hours < cfg.patterns.new_pair.max_age_hours then
    "new_pair"
  else
    "normal"

/-- Result of one `handle_trading` call: the action taken (`"buy"`, `"sell"`
or `"hold"`), the pair's updated price history, and the trade rows and
notifications emitted by `execute_trade`. -/
structure TradeResult where
  action : String
  history : List ℚ
  trades : List TradeEvent
  notes : List Notification
deriving Repr

/-- `handle_trading(self, analysis)`: reads the previous price (last history
entry, or the current price when the history is empty), appends the current
price, computes `price_change = (current - previous) / previous if
previous_price else 0`, then buys when `price_change >= buy_threshold`, else
sells when `price_change <= -sell_threshold`, else does nothing (`hold`).
`execute_trade` records one trade row and one notification per buy/sell. -/
def handle_trading (cfg : TradingCfg) (history : List ℚ)
    (pair_address symbol : String) (current_price : ℚ) : TradeResult :=
  let previous_price := (history.getLast?).getD current_price
  let new_history := history ++ [current_price]
  let price_change := if previous_price ≠ 0 then (current_price - previous_price) / previous_price else 0
  if cfg.buy_threshold ≤ price_change then
    { action := "buy", history := new_history,
      trades := [⟨pair_address, "buy", cfg.amount_usd, current_price⟩],
      notes := [⟨"buy", symbol, cfg.amount_usd, current_price⟩] }
  else if price_change ≤ -cfg.sell_threshold then
    { action := "sell", history := new_history,
      trades := [⟨pair_address, "sell", cfg.amount_usd, current_price⟩],
      notes := [⟨"sell", symbol, cfg.amount_usd, current_price⟩] }
  else
    { action := "hold", history := new_history, trades := [], notes := [] }

/-- Result of `analyze_pair`: the category stored in `analysis["type"]`, the
updated mutable state and the trade rows / notifications emitted. -/
structure AnalyzeResult where
  category : String
  state : BotState
  trades : List TradeEvent
  notes : List Notification

/-- `analyze_pair(self, pair)`: early-return chain — RugCheck status, bundled
supply (appends to the bundled blacklist), fake volume (appends to the
fake-volume blacklist), pattern detection; `handle_trading` runs only for
`"new_pair"` and `"pumped"`.  `rug_status` models
`fetch_rugcheck_report(...).get("status")` (`none` for an empty/absent
report).  A `ZeroDivisionError` from `check_bundled_supply` propagates
(`none`). -/
def analyze_pair (cfg : Config) (st : BotState) (p : Pair)
    (rug_status : Option String) : Option AnalyzeResult :=
  if rug_status ≠ some "GOOD" then
    some { category := "unsafe", state := st, trades := [], notes := [] }
  else
    match check_bundled_supply p.holders with
    | none => none
    | some true =>
        some { category := "bundled",
               state := { st with blacklists :=
                 { st.blacklists with bundled_tokens := st.blacklists.bundled_tokens ++ [p.symbol] } },
               trades := [], notes := [] }
    | some false =>
        if fetch_pocker_universe_data cfg.patterns.fake_volume p.volume_h24 p.liquidity_usd then
          some { category := "fake_volume",
                 state := { st with blacklists :=
                   { st.blacklists with fake_volume_tokens := st.blacklists.fake_volume_tokens ++ [p.symbol] } },
                 trades := [], notes := [] }
        else
          let ty := detect_patterns cfg p.liquidity_usd p.volume_h24 p.ageHours
          if ty = "new_pair" ∨ ty = "pumped" then
            let tr := handle_trading cfg.trading (st.price_history p.pairAddress)
                        p.pairAddress p.symbol p.priceUsd
            some { category := ty,
                   state := { st with price_history :=
                     fun a => if a = p.pairAddress then tr.history else st.price_history a },
                   trades := tr.trades, notes := tr.notes }
          else
            some { category := ty, state := st, trades := [], notes := [] }

/-- The per-run pattern statistics map created in `__init__`:
`{"rugged": [], "pumped": [], "new_pairs": [], "fake_volume": [], "bundled": []}`. -/
def init_patterns : List (String × List String) :=
  [("rugged", []), ("pumped", []), ("new_pairs", []), ("fake_volume", []), ("bundled", [])]

/-- Lookup in the pattern-statistics dict; `none` models a `KeyError`. -/
def patterns_lookup (m : List (String × List String)) (k : String) : Option (List String) :=
  match m.find? (fun kv => decide (kv.fst = k)) with
  | some kv => some kv.snd
  | none => none

/-- In-place `dict[key].append(v)` on the pattern-statistics map. -/
def patterns_append (m : List (String × List String)) (k v : String) :
    List (String × List String) :=
  m.map (fun kv => if kv.fst = k then (kv.fst, kv.snd ++ [v]) else kv)

/-- `save_analysis(self, analysis)`: the token upsert and analysis-row insert
go to the external SQLite store and are abstracted; what is modelled is the
control flow around them — for a non-`"normal"` type the method looks up
`self.patterns[analysis["type"]]` and appends the symbol, and an absent key
raises `KeyError` (modelled `none`) before `self.conn.commit()` is reached,
so the write never commits.  `some` means the method ran to the commit. -/
def save_analysis (patterns : List (String × List String)) (ty symbol : String) :
    Option (List (String × List String)) :=
  if ty = "normal" then some patterns
  else
    match patterns_lookup patterns ty with
    | none => none
    | some _ => some (patterns_append patterns ty symbol)

/-- The classifier precedence as an ordered first-match rule chain, written
from the spec's description (safety → supply concentration → volume
authenticity → pattern detection), to be compared with `analyze_pair`. -/
def first_match_category (cfg : Config) (p : Pair) (rug_status : Option String) :
    Option String :=
  if rug_status ≠ some "GOOD" then some "unsafe"
  else
    match check_bundled_supply p.holders with
    | none => none
    | some true => some "bundled"
    | some false =>
        if fetch_pocker_universe_data cfg.patterns.fake_volume p.volume_h24 p.liquidity_usd then
          some "fake_volume"
        else
          some (detect_patterns cfg p.liquidity_usd p.volume_h24 p.ageHours)

/-! ## Concrete fixtures -/

/-- A concrete configuration matching the spec's worked examples:
min liquidity filter 5000, rugged fraction 1/2 and multiplier 3,
fake-volume ratio 10 with min-transactions 100, trading thresholds 1/10. -/
def cfgA : Config :=
  { filters := ⟨5000, 0, 1000⟩,
    patterns := { rugged := ⟨1/2, 3⟩, pumped := ⟨5, 24⟩, new_pair := ⟨24⟩,
                  fake_volume := ⟨10, 100⟩ },
    trading := ⟨10, 1/10, 1/10⟩ }

/-- An empty bot state: no blacklist entries, no price history. -/
def stEmpty : BotState := ⟨⟨[], [], [], []⟩, fun _ => []⟩

/-- The pair of the spec's fake-volume example: liquidity 1000, volume 20000. -/
def pairC2 : Pair := ⟨"0xc2", "ethereum", "TKN2", 1000, 20000, 1, 1, [], "0xdev"⟩

/-- A pair whose non-empty holder amounts sum to zero. -/
def pairC1 : Pair := ⟨"0xc1", "ethereum", "ZST", 6000, 100, 1, 1, [⟨0⟩, ⟨0⟩, ⟨0⟩], "0xdev"⟩

/-- A pair with a 75%-concentrated holder list. -/
def pairBundled : Pair := ⟨"0xb1", "ethereum", "BND", 6000, 100, 1, 1, [⟨3⟩, ⟨1⟩], "0xdev"⟩

/-- A pair whose symbol sits in the developer blacklist of `blC8`. -/
def pairC8 : Pair := ⟨"0xc8", "ethereum", "XSY", 6000, 100, 1, 1, [], "0xdev"⟩

/-- Blacklists whose developer list contains the symbol of `pairC8`. -/
def blC8 : Blacklists := ⟨[], ["XSY"], [], []⟩

/-! ## Claims -/

/-- C7: `detect_patterns` returns the first matching rule of the cascade
rugged → pumped → new_pair → normal, each rule exactly as configured; in
particular with min liquidity 5000, rugged fraction 1/2, rugged multiplier 3,
liquidity 2000 and volume 7000 it returns `rugged`. -/
theorem detect_patterns_first_match :
    (∀ (cfg : Config) (l v a : ℚ),
      (detect_patterns cfg l v a = "rugged" ↔
        (l < cfg.filters.min_liquidity_usd * cfg.patterns.rugged.liquidity_threshold ∧
         l * cfg.patterns.rugged.volume_multiplier < v)) ∧
      (detect_patterns cfg l v a = "pumped" ↔
        (¬ (l < cfg.filters.min_liquidity_usd * cfg.patterns.rugged.liquidity_threshold ∧
            l * cfg.patterns.rugged.volume_multiplier < v) ∧
         (l * cfg.patterns.pumped.volume_multiplier < v ∧
          a < cfg.patterns.pumped.max_age_hours))) ∧
      (detect_patterns cfg l v a = "new_pair" ↔
        (¬ (l < cfg.filters.min_liquidity_usd * cfg.patterns.rugged.liquidity_threshold ∧
            l * cfg.patterns.rugged.volume_multiplier < v) ∧
         ¬ (l * cfg.patterns.pumped.volume_multiplier < v ∧
            a < cfg.patterns.pumped.max_age_hours) ∧
         a < cfg.patterns.new_pair.max_age_hours)) ∧
      (detect_patterns cfg l v a = "normal" ↔
        (¬ (l < cfg.filters.min_liquidity_usd * cfg.patterns.rugged.liquidity_threshold ∧
            l * cfg.patterns.rugged.volume_multiplier < v) ∧
         ¬ (l * cfg.patterns.pumped.volume_multiplier < v ∧
            a < cfg.patterns.pumped.max_age_hours) ∧
         ¬ a < cfg.patterns.new_pair.max_age_hours))) ∧
    detect_patterns cfgA 2000 7000 1 = "rugged" := by
  constructor
  · intro cfg l v a
    unfold detect_patterns
    split_ifs with h1 h2 h3 <;> refine ⟨?_, ?_, ?_, ?_⟩ <;> simp_all
  · norm_num [detect_patterns, cfgA]

/-- C2: the volume-authenticity check `fetch_pocker_universe_data` ignores any
supplied transaction count: it compares the literal 100 with the configured
minimum, so at the spec's example (liquidity 1000, volume 20000,
ratio threshold 10, min-transactions 100) it returns false and the pair is
classified by the pattern detector (here `rugged`), not `fake_volume`. -/
theorem pocker_universe_placeholder :
    fetch_pocker_universe_data ⟨10, 100⟩ 20000 1000 = false ∧
    (analyze_pair cfgA stEmpty pairC2 (some "GOOD")).map AnalyzeResult.category =
      some "rugged" := by
  constructor
  · norm_num [fetch_pocker_universe_data]
  · norm_num [analyze_pair, check_bundled_supply, fetch_pocker_universe_data,
      detect_patterns, sumAmounts, cfgA, pairC2, stEmpty]
    rw [if_neg (by decide)]
    exact ⟨_, rfl, rfl⟩

/-- C3: for every safety-report status different from the literal "GOOD"
(including an absent report, `none`), `analyze_pair` returns category
`unsafe` immediately with the state untouched (no blacklist mutation, no
price-history append) and no trade events or notifications. -/
theorem analyze_pair_bad_report_terminates :
    ∀ (cfg : Config) (st : BotState) (p : Pair) (rs : Option String),
      rs ≠ some "GOOD" →
      analyze_pair cfg st p rs =
        some { category := "unsafe", state := st, trades := [], notes := [] } := by
  intro cfg st p rs h
  unfold analyze_pair
  rw [if_pos h]

/-- Witness for C3 at a concrete pair with an absent report. -/
theorem analyze_pair_bad_report_terminates_witness :
    (none : Option String) ≠ some "GOOD" ∧
    analyze_pair cfgA stEmpty pairC2 none =
      some { category := "unsafe", state := stEmpty, trades := [], notes := [] } :=
  ⟨by decide, analyze_pair_bad_report_terminates cfgA stEmpty pairC2 none (by decide)⟩

/-- C9: `save_analysis` on the pattern-statistics map as initialized in
`__init__` raises a `KeyError` (modelled `none`, reached before the commit)
for the categories `unsafe` and `new_pair`, which are not keys of the map;
for `normal`, `rugged`, `pumped`, `fake_volume` and `bundled` it completes. -/
theorem save_analysis_key_behavior :
    (∀ sym, save_analysis init_patterns "unsafe" sym = none) ∧
    (∀ sym, save_analysis init_patterns "new_pair" sym = none) ∧
    (∀ ty sym, ty ∈ (["normal", "rugged", "pumped", "fake_volume", "bundled"] : List String) →
      (save_analysis init_patterns ty sym).isSome = true) := by
  refine ⟨fun sym => rfl, fun sym => rfl, ?_⟩
  intro ty sym hty
  fin_cases hty <;> rfl

/-- Witness for C9 at the category `rugged`. -/
theorem save_analysis_key_behavior_witness :
    ("rugged" : String) ∈ (["normal", "rugged", "pumped", "fake_volume", "bundled"] : List String) ∧
    (save_analysis init_patterns "rugged" "TKN").isSome = true :=
  ⟨by decide, save_analysis_key_behavior.2.2 "rugged" "TKN" (by decide)⟩

/-- C10: for every non-empty holder list whose amounts sum to zero,
`check_bundled_supply` divides by zero (an uncaught `ZeroDivisionError`,
modelled `none`) instead of returning a verdict. -/
theorem check_bundled_supply_div_zero :
    ∀ hs : List Holder, hs ≠ [] → sumAmounts hs = 0 → check_bundled_supply hs = none := by
  intro hs hne hsum
  unfold check_bundled_supply
  rw [if_neg (by simpa using hne), if_pos hsum]

/-- Witness for C10 at the holder list `[0, 0]`. -/
theorem check_bundled_supply_div_zero_witness :
    ([⟨0⟩, ⟨0⟩] : List Holder) ≠ [] ∧ sumAmounts [⟨0⟩, ⟨0⟩] = 0 ∧
    check_bundled_supply [⟨0⟩, ⟨0⟩] = none :=
  ⟨by decide, by simp [sumAmounts],
   check_bundled_supply_div_zero [⟨0⟩, ⟨0⟩] (by decide) (by simp [sumAmounts])⟩

/-- C4 counterexample: with buy threshold 0 (a legal configuration value) the
first call for a fresh pair executes a buy — price change is 0 and
`0 >= buy_threshold` holds — so "always returns hold" fails. -/
theorem handle_trading_first_call_counterexample :
    (handle_trading ⟨10, 0, 1/10⟩ [] "0xa" "TKN" 5).action = "buy" ∧
    (handle_trading ⟨10, 0, 1/10⟩ [] "0xa" "TKN" 5).trades ≠ [] := by
  constructor
  · norm_num [handle_trading]
  · norm_num [handle_trading]

/-- C4 (amended): for every trading configuration with positive buy and sell
thresholds, the first call for a pair with no history returns `hold`, emits
no trade event and no notification, and appends exactly the observed price. -/
theorem handle_trading_first_call_hold :
    ∀ (cfg : TradingCfg) (addr sym : String) (price : ℚ),
      0 < cfg.buy_threshold → 0 < cfg.sell_threshold →
      handle_trading cfg [] addr sym price =
        { action := "hold", history := [price], trades := [], notes := [] } := by
  intro cfg addr sym price hb hs
  unfold handle_trading
  simp only [List.getLast?_nil, Option.getD_none, List.nil_append]
  have hpc : (if (price : ℚ) ≠ 0 then (price - price) / price else 0) = 0 := by
    split_ifs with hp
    · rw [sub_self, zero_div]
    · rfl
  rw [hpc, if_neg (not_le.mpr hb), if_neg (by rw [neg_nonneg]; exact not_le.mpr hs)]

/-- Witness for C4 (amended) at thresholds 1/10 and price 5. -/
theorem handle_trading_first_call_hold_witness :
    (0 : ℚ) < 1/10 ∧
    handle_trading ⟨10, 1/10, 1/10⟩ [] "0xa" "TKN" 5 =
      { action := "hold", history := [5], trades := [], notes := [] } :=
  ⟨by norm_num,
   handle_trading_first_call_hold ⟨10, 1/10, 1/10⟩ "0xa" "TKN" 5 (by norm_num) (by norm_num)⟩

/-- C5 counterexample: with buy threshold -1/2 and sell threshold 1/2, a price
drop from 100 to 50 satisfies the sell condition (change -1/2 ≤ -1/2) yet the
code buys, because the buy branch is tested first — "sell iff change ≤
-sell-threshold" fails as an iff. -/
theorem handle_trading_sell_iff_counterexample :
    ((50 : ℚ) - 100) / 100 ≤ -((1 : ℚ)/2) ∧
    (handle_trading ⟨10, -(1/2), 1/2⟩ [100] "0xa" "TKN" 50).action = "buy" ∧
    ("buy" : String) ≠ "sell" := by
  refine ⟨by norm_num, ?_, by decide⟩
  norm_num [handle_trading]

/-- C5 (amended): on a non-empty history with last element `prev`, the price
change is `(price - prev)/prev` (0 when `prev` is 0), the action is `buy` iff
the change reaches the buy threshold, `sell` iff it is at most the negated
sell threshold and the buy condition fails (buy is tested first), `hold`
otherwise; the price is appended exactly once and a trade is emitted iff the
action is not `hold`. -/
theorem handle_trading_subsequent :
    ∀ (cfg : TradingCfg) (history : List ℚ) (addr sym : String) (price prev : ℚ),
      history.getLast? = some prev →
      (handle_trading cfg history addr sym price).history = history ++ [price] ∧
      ((handle_trading cfg history addr sym price).action = "buy" ↔
        cfg.buy_threshold ≤ (if prev ≠ 0 then (price - prev) / prev else 0)) ∧
      ((handle_trading cfg history addr sym price).action = "sell" ↔
        ((if prev ≠ 0 then (price - prev) / prev else 0) ≤ -cfg.sell_threshold ∧
         ¬ cfg.buy_threshold ≤ (if prev ≠ 0 then (price - prev) / prev else 0))) ∧
      ((handle_trading cfg history addr sym price).action = "hold" ↔
        (¬ cfg.buy_threshold ≤ (if prev ≠ 0 then (price - prev) / prev else 0) ∧
         ¬ (if prev ≠ 0 then (price - prev) / prev else 0) ≤ -cfg.sell_threshold)) ∧
      ((handle_trading cfg history addr sym price).trades = [] ↔
        (handle_trading cfg history addr sym price).action = "hold") := by
  intro cfg history addr sym price prev hgl
  simp only [handle_trading, hgl, Option.getD_some]
  split_ifs with h1 h2 <;> simp_all

/-- Witness for C5 (amended): previous price 100, current 111, thresholds
1/10 — the buy condition characterization applies. -/
theorem handle_trading_subsequent_witness :
    ([(100 : ℚ)].getLast? = some 100) ∧
    ((handle_trading ⟨10, 1/10, 1/10⟩ [100] "0xa" "TKN" 111).action = "buy" ↔
      (1 : ℚ)/10 ≤ (if (100 : ℚ) ≠ 0 then ((111 : ℚ) - 100) / 100 else 0)) :=
  ⟨rfl, (handle_trading_subsequent ⟨10, 1/10, 1/10⟩ [100] "0xa" "TKN" 111 100 rfl).2.1⟩

/-- C6 counterexample: a non-empty holder list summing to zero makes
`check_bundled_supply` raise (`none`) instead of returning the verdict
`false` that the claim assigns to it (no holder exceeds half of a zero sum). -/
theorem check_bundled_supply_zero_sum_counterexample :
    check_bundled_supply [⟨0⟩] = none ∧
    ¬ (∃ h ∈ ([⟨0⟩] : List Holder), sumAmounts [⟨0⟩] / 2 < h.amount) := by
  constructor
  · norm_num [check_bundled_supply, sumAmounts]
  · simp [sumAmounts]

/-- C6 (amended): `check_bundled_supply` returns `false` on an empty holder
list; on a non-empty list whose amounts sum to a positive value it returns
`true` exactly when some holder's amount exceeds half the sum; and whenever
it returns `true`, `analyze_pair` labels the pair `bundled` and appends its
symbol to the bundled-tokens blacklist. -/
theorem check_bundled_supply_spec :
    (check_bundled_supply [] = some false) ∧
    (∀ hs : List Holder, hs ≠ [] → 0 < sumAmounts hs →
      ∃ b, check_bundled_supply hs = some b ∧
        (b = true ↔ ∃ h ∈ hs, sumAmounts hs / 2 < h.amount)) ∧
    (∀ (cfg : Config) (st : BotState) (p : Pair),
      check_bundled_supply p.holders = some true →
      (analyze_pair cfg st p (some "GOOD")).map
          (fun r => (r.category, r.state.blacklists.bundled_tokens)) =
        some ("bundled", st.blacklists.bundled_tokens ++ [p.symbol])) := by
  refine ⟨rfl, ?_, ?_⟩
  · intro hs hne hpos
    have harith : ∀ a : ℚ, ((1 : ℚ)/2 < a / sumAmounts hs ↔ sumAmounts hs / 2 < a) := by
      intro a
      rw [lt_div_iff₀ hpos]
      constructor <;> intro h <;> linarith
    refine ⟨hs.any (fun h => decide ((1 : ℚ)/2 < h.amount / sumAmounts hs)), ?_, ?_⟩
    · unfold check_bundled_supply
      rw [if_neg (by simpa using hne), if_neg (ne_of_gt hpos)]
    · simp only [List.any_eq_true, decide_eq_true_eq]
      constructor
      · rintro ⟨h, hm, hh⟩
        exact ⟨h, hm, (harith h.amount).mp hh⟩
      · rintro ⟨h, hm, hh⟩
        exact ⟨h, hm, (harith h.amount).mpr hh⟩
  · intro cfg st p hcb
    unfold analyze_pair
    rw [if_neg (by simp), hcb]
    rfl

/-- Witness for C6 (amended) on the 75%-concentrated list `[3, 1]` and the
pair `pairBundled` carrying it. -/
theorem check_bundled_supply_spec_witness :
    (∃ b, check_bundled_supply [⟨3⟩, ⟨1⟩] = some b ∧
      (b = true ↔ ∃ h ∈ ([⟨3⟩, ⟨1⟩] : List Holder), sumAmounts [⟨3⟩, ⟨1⟩] / 2 < h.amount)) ∧
    (analyze_pair cfgA stEmpty pairBundled (some "GOOD")).map
        (fun r => (r.category, r.state.blacklists.bundled_tokens)) =
      some ("bundled", stEmpty.blacklists.bundled_tokens ++ [pairBundled.symbol]) :=
  ⟨check_bundled_supply_spec.2.1 [⟨3⟩, ⟨1⟩] (by decide) (by norm_num [sumAmounts]),
   check_bundled_supply_spec.2.2 cfgA stEmpty pairBundled
     (by norm_num [check_bundled_supply, sumAmounts, pairBundled])⟩

/-- C8 counterexample: a symbol listed in the developer blacklist does not
block admission — `apply_filters` checks the symbol only against the token,
fake-volume and bundled lists — so "symbol in none of the four blacklist
sets" is not necessary for admission. -/
theorem apply_filters_dev_blacklist_counterexample :
    pairC8.symbol ∈ blC8.developers ∧ apply_filters cfgA blC8 pairC8 = true := by
  constructor
  · decide
  · norm_num [apply_filters, cfgA, blC8, pairC8]
    decide

/-- C8 (amended): `apply_filters` admits a pair iff its symbol is in none of
the three symbol blacklists (tokens, fake-volume tokens, bundled tokens), its
developer address is not in the developer blacklist, liquidity and volume
reach their minimums and the age does not exceed the maximum; any hit among
those four membership tests rejects regardless of the numeric values. -/
theorem apply_filters_spec :
    (∀ (cfg : Config) (bl : Blacklists) (p : Pair),
      apply_filters cfg bl p = true ↔
        (p.symbol ∉ bl.tokens ∧ p.maker_address ∉ bl.developers ∧
         p.symbol ∉ bl.fake_volume_tokens ∧ p.symbol ∉ bl.bundled_tokens ∧
         cfg.filters.min_liquidity_usd ≤ p.liquidity_usd ∧
         cfg.filters.min_volume_24h ≤ p.volume_h24 ∧
         p.ageHours ≤ cfg.filters.max_age_hours)) ∧
    (∀ (cfg : Config) (bl : Blacklists) (p : Pair),
      (p.symbol ∈ bl.tokens ∨ p.symbol ∈ bl.fake_volume_tokens ∨
       p.symbol ∈ bl.bundled_tokens ∨ p.maker_address ∈ bl.developers) →
      apply_filters cfg bl p = false) := by
  constructor
  · intro cfg bl p
    unfold apply_filters
    split_ifs with h
    · simp only [Bool.false_eq_true, false_iff]
      tauto
    · push_neg at h
      simp only [Bool.and_eq_true, decide_eq_true_eq]
      tauto
  · intro cfg bl p h
    unfold apply_filters
    rw [if_pos (by tauto)]

/-- Witness for C8 (amended): a blacklisted symbol is rejected despite
passing every numeric filter. -/
theorem apply_filters_spec_witness :
    (("BAD" : String) ∈ (["BAD"] : List String) ∨
     ("BAD" : String) ∈ ([] : List String) ∨
     ("BAD" : String) ∈ ([] : List String) ∨
     ("0xdev" : String) ∈ ([] : List String)) ∧
    apply_filters cfgA ⟨["BAD"], [], [], []⟩
      ⟨"0xbad", "ethereum", "BAD", 6000, 100, 1, 1, [], "0xdev"⟩ = false :=
  ⟨Or.inl (by decide),
   apply_filters_spec.2 cfgA ⟨["BAD"], [], [], []⟩
     ⟨"0xbad", "ethereum", "BAD", 6000, 100, 1, 1, [], "0xdev"⟩ (Or.inl (by decide))⟩

/-- C1 counterexample: an admitted pair (GOOD safety report, passes every
filter) whose non-empty holder amounts sum to zero gets no category at all —
the supply-concentration check raises before any assignment. -/
theorem analyze_pair_no_category_counterexample :
    apply_filters cfgA stEmpty.blacklists pairC1 = true ∧
    analyze_pair cfgA stEmpty pairC1 (some "GOOD") = none := by
  constructor
  · norm_num [apply_filters, cfgA, stEmpty, pairC1]
  · norm_num [analyze_pair, check_bundled_supply, sumAmounts, pairC1]

/-- C1 (amended): the category of `analyze_pair` — when one is assigned —
equals the first matching check of the fixed chain safety → supply
concentration → volume authenticity → pattern detection (`none` exactly when
the supply check raises), and whenever the assigned category is `unsafe`,
`bundled` or `fake_volume` no trade event or notification is emitted and the
price history is untouched. -/
theorem analyze_pair_rule_chain :
    ∀ (cfg : Config) (st : BotState) (p : Pair) (rs : Option String),
      (analyze_pair cfg st p rs).map AnalyzeResult.category = first_match_category cfg p rs ∧
      (∀ r, analyze_pair cfg st p rs = some r →
        (r.category = "unsafe" ∨ r.category = "bundled" ∨ r.category = "fake_volume") →
        r.trades = [] ∧ r.notes = [] ∧ r.state.price_history = st.price_history) := by
  intro cfg st p rs
  unfold analyze_pair first_match_category
  by_cases hrs : rs ≠ some "GOOD"
  · rw [if_pos hrs, if_pos hrs]
    refine ⟨rfl, ?_⟩
    intro r hr hcat
    cases Option.some.inj hr
    exact ⟨rfl, rfl, rfl⟩
  · rw [if_neg hrs, if_neg hrs]
    rcases hcb : check_bundled_supply p.holders with _ | b
    · refine ⟨rfl, ?_⟩
      intro r hr hcat
      exact Option.noConfusion hr
    · rcases b with _ | _
      · by_cases hp : fetch_pocker_universe_data cfg.patterns.fake_volume p.volume_h24
            p.liquidity_usd = true
        · rw [if_pos hp, if_pos hp]
          refine ⟨rfl, ?_⟩
          intro r hr hcat
          cases Option.some.inj hr
          exact ⟨rfl, rfl, rfl⟩
        · rw [if_neg hp, if_neg hp]
          dsimp only
          split_ifs with hty
          · refine ⟨rfl, ?_⟩
            intro r hr hcat
            cases Option.some.inj hr
            rcases hty with h | h <;> simp_all
          · refine ⟨rfl, ?_⟩
            intro r hr hcat
            cases Option.some.inj hr
            exact ⟨rfl, rfl, rfl⟩
      · refine ⟨rfl, ?_⟩
        intro r hr hcat
        cases Option.some.inj hr
        exact ⟨rfl, rfl, rfl⟩

/-- Witness for C1 (amended) at a concrete pair with an absent safety report:
the rule chain gives `unsafe` and the terminal-category clause applies. -/
theorem analyze_pair_rule_chain_witness :
    (analyze_pair cfgA stEmpty pairC2 none).map AnalyzeResult.category =
        first_match_category cfgA pairC2 none ∧
    (({ category := "unsafe", state := stEmpty, trades := [], notes := [] } :
        AnalyzeResult).trades = [] ∧
     ({ category := "unsafe", state := stEmpty, trades := [], notes := [] } :
        AnalyzeResult).notes = [] ∧
     ({ category := "unsafe", state := stEmpty, trades := [], notes := [] } :
        AnalyzeResult).state.price_history = stEmpty.price_history) :=
  ⟨(analyze_pair_rule_chain cfgA stEmpty pairC2 none).1,
   (analyze_pair_rule_chain cfgA stEmpty pairC2 none).2
     { category := "unsafe", state := stEmpty, trades := [], notes := [] }
     (by rfl) (Or.inl rfl)⟩

end CryptoBot
